import Mathlib

/-!
Verification of the video-masa application (src/app.py): a Flask front end
driving yt-dlp, whisper and ffmpeg, with an in-memory job store mutated by
background threads, a per-job cleanup endpoint, an all-terminal cleanup sweep
and a shutdown-time directory wipe.  The data model and the operations below
are shallow embeddings of the corresponding pieces of app.py; each definition
names the lines it embeds.  Filesystem effects are modelled by boolean
presence flags carried next to the paths the code manipulates.
-/

namespace VideoMasa

/-- Python str.strip with no argument: drop leading and trailing whitespace,
as applied to the submitted URL at app.py line 313. -/
def pyStrip (s : String) : String :=
  String.mk (((s.data.dropWhile Char.isWhitespace).reverse.dropWhile Char.isWhitespace).reverse)

/-- Python str.lower, as applied to form flags (app.py lines 370-371) and to
the upload extension (line 365). -/
def pyLower (s : String) : String := String.mk (s.data.map Char.toLower)

/-- Python slicing stderr[:200], the truncation used in the failure messages
(app.py lines 84, 134, 244, 470). -/
def take200 (s : String) : String := String.mk (s.data.take 200)

/-- Final component of a path string, Path(name).name. -/
def pathFinalComponent (s : String) : String := ((s.splitOn "/").reverse).headD ""

/-- Index of the last dot of a character list, Python name.rfind applied to a
dot, as used by pathlib to split off the suffix. -/
def lastDotIndex (cs : List Char) : Option Nat :=
  match cs.reverse.findIdx? (fun c => c == '.') with
  | none => none
  | some k => some (cs.length - 1 - k)

/-- Python pathlib Path(s).suffix: the dot-suffix of the final component, and
the empty string when the last dot is absent, leading, or trailing. -/
def pySuffix (s : String) : String :=
  let name := pathFinalComponent s
  match lastDotIndex name.data with
  | none => ""
  | some i => if 0 < i ∧ i + 1 < name.data.length then String.mk (name.data.drop i) else ""

/-- Python pathlib Path(s).stem: the final component with its suffix removed. -/
def pyStem (s : String) : String :=
  let name := pathFinalComponent s
  let suf := pySuffix s
  String.mk (name.data.take (name.data.length - suf.data.length))

/-- One per-model transcript entry of the transcripts mapping: the dict
written at app.py lines 121, 135, 163, 167 and the analogous sites. -/
structure TEntry where
  transcript : String
  timestamped : String
  status : String
deriving DecidableEq

/-- Python dict assignment transcripts[model] = entry.  Lookups through
List.lookup see the most recent binding, matching dict reads. -/
def dictSet (ts : List (String × TEntry)) (k : String) (v : TEntry) :
    List (String × TEntry) :=
  (k, v) :: ts

/-- One record of the in-memory job store (the dicts built at app.py lines
328-344 and 384-400), extended with a boolean model of the on-disk artifacts
tied to the job: fileOnDisk for the path held in file_path, mp3OnDisk for its
mp3 sibling, thumbOnDisk for the jpg thumbnail of the job.  The dict key
written as underscore file path in app.py is file_path here, with the empty
string standing for a missing key, matching the dict get with default. -/
structure Job where
  status : String
  message : String
  transcript : String
  timestamped : String
  download_ready : Bool
  download_path : String
  filename : String
  title : String
  thumbnail : String
  url : String
  do_transcribe : Bool
  do_download : Bool
  transcripts : List (String × TEntry)
  model : String
  file_status : String
  file_path : String
  fileOnDisk : Bool
  mp3OnDisk : Bool
  thumbOnDisk : Bool
deriving DecidableEq

/-- HTTP response observations used by the claims: the status code, the ok
flag, the error message when one is returned, and the extra JSON fields some
handlers add.  A field left at its default is absent from the JSON body. -/
structure Resp where
  code : Nat
  ok : Bool := false
  error : Option String := none
  model : Option String := none
  download_ready : Option Bool := none
  filename : Option String := none
  job_id_issued : Bool := false
deriving DecidableEq

/-- Model sizes accepted by the four handlers (app.py lines 318, 373, 428, 537). -/
def VALID_MODELS : List String := ["tiny", "base", "small", "medium"]

/-- Upload extensions accepted by the upload handler (app.py line 353). -/
def ALLOWED_EXTENSIONS : List String :=
  [".mp4", ".mov", ".webm", ".mkv", ".mp3", ".wav", ".m4a", ".ogg", ".flac", ".avi", ".m4v"]

/-- Suffixes the URL runner scans for when locating the downloaded file
(app.py line 90). -/
def RUNNER_SCAN_SUFFIXES : List String :=
  [".mp4", ".mkv", ".webm", ".mov", ".m4a", ".mp3", ".wav"]

/-- Sidecar suffixes whisper may emit, removed after transcription
(app.py lines 170, 276, 499, 595). -/
def WHISPER_SIDECAR_SUFFIXES : List String := [".srt", ".vtt", ".txt", ".tsv"]

/-- Suffixes deleted by the shutdown-time directory wipe (app.py line 704). -/
def CLEANUP_SUFFIXES : List String :=
  [".mp4", ".mkv", ".webm", ".mov", ".m4a", ".mp3", ".wav", ".json", ".srt", ".vtt",
   ".txt", ".tsv", ".jpg"]

/-- Timeout in seconds of the thumbnail fetch in the URL runner (app.py line 60). -/
def run_job_thumbnail_timeout : Nat := 15

/-- Timeout in seconds of the yt-dlp download (app.py line 80). -/
def run_job_download_timeout : Nat := 300

/-- Timeout in seconds of the whisper run in the URL runner (app.py line 130). -/
def run_job_whisper_timeout : Nat := 600

/-- Timeout in seconds of the ffmpeg thumbnail extraction in the upload runner
(app.py line 217). -/
def run_file_job_thumbnail_timeout : Nat := 15

/-- Timeout in seconds of the whisper run in the upload runner (app.py line 240). -/
def run_file_job_whisper_timeout : Nat := 600

/-- Timeout in seconds of the whisper run in the merge transcription thread
(app.py line 467). -/
def merge_whisper_timeout : Nat := 600

/-- Timeout in seconds of the whisper run in the retranscribe thread
(app.py line 565). -/
def retranscribe_whisper_timeout : Nat := 600

/-- Model-size normalisation shared by the four handlers (app.py lines
318-319, 373-374, 428-429, 537-538): anything outside the accepted set is
silently replaced by the base model. -/
def normalizeModel (m : String) : String :=
  if VALID_MODELS.contains m then m else "base"

/-- Job record created by the process handler (app.py lines 328-344). -/
def process_new_job (url : String) (model_size : String) (dt dd : Bool) : Job :=
  { status := "queued", message := "Queued...", transcript := "", timestamped := "",
    download_ready := false, download_path := "", filename := "", title := "",
    thumbnail := "", url := url, do_transcribe := dt, do_download := dd,
    transcripts := [], model := model_size, file_status := "absent",
    file_path := "", fileOnDisk := false, mp3OnDisk := false, thumbOnDisk := false }

/-- Job record created by the upload handler (app.py lines 384-400); safe_name
is the sanitised upload filename. -/
def upload_new_job (safe_name : String) (model_size : String) (dt dd : Bool) : Job :=
  { status := "queued", message := "Queued...", transcript := "", timestamped := "",
    download_ready := false, download_path := "", filename := safe_name,
    title := pyStem safe_name, thumbnail := "", url := "", do_transcribe := dt,
    do_download := dd, transcripts := [], model := model_size,
    file_status := "absent", file_path := "", fileOnDisk := false,
    mp3OnDisk := false, thumbOnDisk := false }

/-- Embeds app.py lines 100-101 (and 196-197 in the upload runner): the runner
stores the resolved file path and marks file_status present, overwriting
whatever values were there; the file exists on disk at that moment. -/
def run_job_record_file (job : Job) (path : String) : Job :=
  { job with file_path := path, file_status := "present", fileOnDisk := true }

/-- Embeds app.py lines 82-85: yt-dlp exited non-zero in the URL runner. -/
def run_job_download_fail (job : Job) (stderr : String) : Job :=
  { job with status := "error", message := "Download failed: " ++ take200 stderr }

/-- Embeds app.py lines 132-136: whisper exited non-zero in the URL runner. -/
def run_job_transcribe_fail (job : Job) (model_size stderr : String) : Job :=
  { job with status := "error",
             message := "Transcription failed: " ++ take200 stderr,
             transcripts := dictSet job.transcripts model_size ⟨"", "", "error"⟩ }

/-- Embeds app.py lines 242-246: whisper exited non-zero in the upload runner. -/
def run_file_job_transcribe_fail (job : Job) (model_size stderr : String) : Job :=
  { job with status := "error",
             message := "Transcription failed: " ++ take200 stderr,
             transcripts := dictSet job.transcripts model_size ⟨"", "", "error"⟩ }

/-- Embeds app.py lines 468-472: whisper exited non-zero in the merge
transcription thread. -/
def merge_transcribe_fail (job : Job) (merge_model stderr : String) : Job :=
  { job with status := "error",
             message := "Transcription failed: " ++ take200 stderr,
             transcripts := dictSet job.transcripts merge_model ⟨"", "", "error"⟩ }

/-- Embeds app.py lines 567-569: whisper exited non-zero in the retranscribe
thread.  Only the per-model transcripts entry is marked; the job status and
message fields are not touched and the captured stderr is discarded. -/
def retranscribe_fail (job : Job) (rt_model : String) : Job :=
  { job with transcripts := dictSet job.transcripts rt_model ⟨"", "", "error"⟩ }

/-- Embeds app.py lines 179-181: the TimeoutExpired handler of the URL runner. -/
def run_job_timeout (job : Job) : Job :=
  { job with status := "error", message := "Process timed out." }

/-- Embeds app.py lines 285-287: the TimeoutExpired handler of the upload runner. -/
def run_file_job_timeout (job : Job) : Job :=
  { job with status := "error", message := "Process timed out." }

/-- Embeds app.py lines 507-510: the TimeoutExpired handler of the merge
transcription thread. -/
def merge_timeout (job : Job) (merge_model : String) : Job :=
  { job with status := "error", message := "Transcription timed out.",
             transcripts := dictSet job.transcripts merge_model ⟨"", "", "error"⟩ }

/-- Embeds app.py lines 600-601: the TimeoutExpired handler of the
retranscribe thread.  Only the per-model transcripts entry is marked; job
status and message are not touched. -/
def retranscribe_timeout (job : Job) (rt_model : String) : Job :=
  { job with transcripts := dictSet job.transcripts rt_model ⟨"", "", "error"⟩ }

/-- Embeds the URL runner when whisper exits zero but no matching JSON output
file is found (app.py lines 164-167) followed by the normal completion of the
runner (lines 175-176). -/
def run_job_missing_json_tail (job : Job) (model_size : String) : Job :=
  let j1 := { job with transcript := "Transcription completed but output not found.",
                       timestamped := "" }
  let j2 := { j1 with transcripts := dictSet j1.transcripts model_size
                        ⟨j1.transcript, "", "done"⟩ }
  { j2 with status := "done", message := "Complete" }

/-- Embeds the upload runner when whisper exits zero but no matching JSON
output file is found (app.py lines 271-274) followed by the normal completion
of the runner (lines 281-282). -/
def run_file_job_missing_json_tail (job : Job) (model_size : String) : Job :=
  let j1 := { job with transcript := "Transcription completed but output not found.",
                       timestamped := "" }
  let j2 := { j1 with transcripts := dictSet j1.transcripts model_size
                        ⟨j1.transcript, "", "done"⟩ }
  { j2 with status := "done", message := "Complete" }

/-- Embeds the per-job body of the all-terminal sweep (app.py lines 686-697):
jobs whose file_status is not present, and jobs still marked download_ready,
are skipped; otherwise the backing file is unlinked when a path is recorded
and file_status becomes cleaned. -/
def sweep_job (job : Job) : Job :=
  if job.file_status ≠ "present" then job
  else if job.download_ready then job
  else { job with fileOnDisk := if job.file_path = "" then job.fileOnDisk else false,
                  file_status := "cleaned" }

/-- Embeds check_queue_and_cleanup (app.py lines 678-697): nothing happens on
an empty store or while any job is non-terminal; otherwise every job record is
rewritten by the per-job sweep. -/
def check_queue_and_cleanup (store : List Job) : List Job :=
  if store.isEmpty then store
  else if store.all (fun j => j.status == "done" || j.status == "error") then
    store.map sweep_job
  else store

/-- Embeds the per-job cleanup endpoint for a job found in the store (app.py
lines 650-673); the not-found 404 branch precedes this code and is not part of
it.  When a file path is recorded the backing file and its mp3 sibling are
unlinked; the thumbnail is always unlinked; file_status becomes cleaned and
download_ready is cleared; the response is 200 with ok true. -/
def cleanup_file (job : Job) : Job × Resp :=
  let j1 := if job.file_path = "" then job
            else { job with fileOnDisk := false, mp3OnDisk := false }
  let j2 := { j1 with thumbOnDisk := false }
  let j3 := { j2 with file_status := "cleaned", download_ready := false }
  (j3, { code := 200, ok := true })

/-- JSON body of a process request (app.py lines 312-316), after the dict gets
with their defaults have been applied. -/
structure ProcessReq where
  url : String
  model : String
  transcribe : Bool
  download : Bool

/-- Embeds the process handler (app.py lines 310-350).  The random job id and
the thread spawn are abstracted: the created record is appended to the store,
and a successful response carries a job id. -/
def process (req : ProcessReq) (store : List Job) : Resp × List Job :=
  let url := pyStrip req.url
  let model_size := normalizeModel req.model
  if url = "" then
    ({ code := 400, error := some "No URL provided" }, store)
  else if req.transcribe = false ∧ req.download = false then
    ({ code := 400, error := some "Select at least one action (Transcribe or Download)" },
     store)
  else
    ({ code := 200, job_id_issued := true },
     store ++ [process_new_job url model_size req.transcribe req.download])

/-- Multipart form of an upload request (app.py lines 358-371): whether a file
part is present, its filename, and the three form fields after their dict-get
defaults (model defaults to base, transcribe to true, download to false). -/
structure UploadReq where
  hasFile : Bool
  filename : String
  formModel : String
  formTranscribe : String
  formDownload : String

/-- Embeds the truthiness parse of the upload form flags (app.py lines 370-371). -/
def parseFormFlag (s : String) : Bool := ["true", "1", "yes"].contains (pyLower s)

/-- Embeds the upload handler (app.py lines 356-406).  The sanitising
secure_filename from werkzeug is an external collaborator passed in as sf; the
saved file and the thread spawn are abstracted as in the process handler. -/
def upload (sf : String → String) (req : UploadReq) (store : List Job) :
    Resp × List Job :=
  if req.hasFile = false then
    ({ code := 400, error := some "No file provided" }, store)
  else if req.filename = "" then
    ({ code := 400, error := some "No file selected" }, store)
  else
    let ext := pyLower (pySuffix req.filename)
    if ALLOWED_EXTENSIONS.contains ext = false then
      ({ code := 400, error := some ("Unsupported file type: " ++ ext) }, store)
    else
      let model_size := normalizeModel req.formModel
      let dt := parseFormFlag req.formTranscribe
      let dd := parseFormFlag req.formDownload
      if dt = false ∧ dd = false then
        ({ code := 400, error := some "Select at least one action (Transcribe or Download)" },
         store)
      else
        ({ code := 200, job_id_issued := true },
         store ++ [upload_new_job (sf req.filename) model_size dt dd])

/-- JSON body of a merge request (app.py lines 424-427) after defaults. -/
structure MergeReq where
  download : Bool
  transcribe : Bool
  model : String

/-- Embeds the merge handler for a known job (app.py lines 417-525).  The
spawned transcription thread is represented by the returned Option String
carrying the model it would run with; the body of that thread is embedded
separately by merge_transcribe_fail and merge_timeout.  Existence checks on
the recorded path read the fileOnDisk flag. -/
def merge_job (job : Job) (req : MergeReq) : Job × Resp × Option String :=
  let model_size := normalizeModel req.model
  let resp0 : Resp := { code := 200, ok := true }
  let state1 :=
    if req.download && !job.do_download then
      let j := { job with do_download := true }
      if j.file_path != "" && j.fileOnDisk then
        ({ j with download_ready := true, download_path := j.file_path },
         { resp0 with download_ready := some true, filename := some j.filename })
      else (j, resp0)
    else (job, resp0)
  let j1 := state1.1
  let resp1 := state1.2
  if req.transcribe && !j1.do_transcribe then
    let j2 := { j1 with do_transcribe := true }
    if j2.status = "done" then
      if j2.file_path != "" && j2.fileOnDisk then
        ({ j2 with status := "transcribing", message := "Transcribing audio...",
                   transcripts := dictSet j2.transcripts model_size ⟨"", "", "transcribing"⟩ },
         resp1, some model_size)
      else
        ({ j2 with status := "error",
                   message := "File no longer exists for transcription." },
         resp1, none)
    else (j2, resp1, none)
  else (j1, resp1, none)

/-- Embeds the retranscribe handler for a known job (app.py lines 528-609).
The spawned thread is represented by the returned Option String; its body is
embedded separately by retranscribe_fail and retranscribe_timeout. -/
def retranscribe (job : Job) (model0 : String) : Job × Resp × Option String :=
  let model := normalizeModel model0
  let alreadyRunning :=
    match List.lookup model job.transcripts with
    | some e => e.status == "transcribing"
    | none => false
  if alreadyRunning then
    (job, { code := 400, error := some "Already transcribing with this model" }, none)
  else if job.file_path = "" ∨ job.fileOnDisk = false then
    (job,
     { code := 410,
       error := some "Source file was cleaned up. Resubmit the URL to transcribe with a different model." },
     none)
  else
    ({ job with transcripts := dictSet job.transcripts model ⟨"", "", "transcribing"⟩ },
     { code := 200, ok := true, model := some model }, some model)

/-- Whisper JSON segment: the numeric start and end fields are modelled as
rationals standing for the JSON numbers, the end field named stop because its
source name is reserved in Lean. -/
structure Segment where
  start : Rat
  stop : Rat
  text : String

/-- Python int() on a nonnegative-or-negative rational: truncation toward zero. -/
def pyInt (q : Rat) : Int := q.num.tdiv q.den

/-- Python divmod on integers: floor division and the matching remainder. -/
def pyDivmod (n m : Int) : Int × Int := (n.fdiv m, n.fmod m)

/-- Python format specifier of width two with zero padding, as used for the
minute and second fields. -/
def fmt02d (n : Int) : String := if 0 ≤ n ∧ n < 10 then "0" ++ toString n else toString n

/-- Embeds app.py lines 153-159: one timestamped transcript line built from a
segment. -/
def timestampLine (seg : Segment) : String :=
  let sm_ss := pyDivmod (pyInt seg.start) 60
  let em_es := pyDivmod (pyInt seg.stop) 60
  "[" ++ fmt02d sm_ss.1 ++ ":" ++ fmt02d sm_ss.2 ++ " → " ++
    fmt02d em_es.1 ++ ":" ++ fmt02d em_es.2 ++ "]  " ++ pyStrip seg.text

/-- Embeds the newline join of the timestamped lines (app.py line 160). -/
def timestampedField (segs : List Segment) : String :=
  String.intercalate "\n" (segs.map timestampLine)

/-- Transcript line as the specification words it: minutes and seconds of the
integer-truncated start and end times, two-digit zero-padded, the two
minute-second pairs joined by the arrow separator, followed by two spaces and
the whitespace-stripped segment text. -/
def claimTimestampLine (seg : Segment) : String :=
  let s := pyInt seg.start
  let e := pyInt seg.stop
  "[" ++ fmt02d (s.ediv 60) ++ ":" ++ fmt02d (s.emod 60) ++ " → " ++
    fmt02d (e.ediv 60) ++ ":" ++ fmt02d (e.emod 60) ++ "]  " ++ pyStrip seg.text

/-- One entry of the working directory, observed through the two attributes
the shutdown wipe reads: whether it is a regular file, and its suffix. -/
structure DirEntry where
  isFile : Bool
  suffix : String
deriving DecidableEq

/-- Embeds cleanup_downloads_dir (app.py lines 700-707): every regular file
whose suffix is in the fixed list is unlinked, unconditionally. -/
def cleanup_downloads_dir (dir : List DirEntry) : List DirEntry :=
  dir.filter (fun f => !(f.isFile && CLEANUP_SUFFIXES.contains f.suffix))

/-- Sample job record used to instantiate theorems at concrete inputs: a
finished URL job whose downloaded file is still on disk. -/
def baseJob : Job :=
  { status := "done", message := "Complete", transcript := "", timestamped := "",
    download_ready := false, download_path := "", filename := "v.mp4", title := "v",
    thumbnail := "", url := "http://example.test/v", do_transcribe := true,
    do_download := false, transcripts := [], model := "base",
    file_status := "present", file_path := "/work/abc_v.mp4", fileOnDisk := true,
    mp3OnDisk := false, thumbOnDisk := false }

/-- One step of the chain absent to present to cleaned claimed for the
file_status field. -/
def chainStep (a b : String) : Prop :=
  (a = "absent" ∧ b = "present") ∨ (a = "present" ∧ b = "cleaned")

/-- C2 counterexample: the per-job cleanup endpoint applied to a freshly
created job moves file_status from absent directly to cleaned, which is not a
step of the chain absent to present to cleaned; applying the runner
file-recording step afterwards (the interleaving in which the cleanup request
arrives while the download is still running) moves it from cleaned back to
present. -/
theorem file_status_chain_counterexample :
    (process_new_job "http://example.test/v" "base" true false).file_status = "absent" ∧
    (cleanup_file (process_new_job "http://example.test/v" "base" true false)).1.file_status
      = "cleaned" ∧
    ¬ chainStep "absent" "cleaned" ∧
    (run_job_record_file
        (cleanup_file (process_new_job "http://example.test/v" "base" true false)).1
        "/work/x.mp4").file_status = "present" := by
  refine ⟨rfl, rfl, ?_, rfl⟩
  intro h
  rcases h with ⟨h1, h2⟩ | ⟨h1, h2⟩ <;> simp at h1 h2

/-- C2 amended: the all-terminal sweep either leaves file_status unchanged or
makes the single chain step from present (with download_ready clear) to
cleaned, and the whole-store sweep is pointwise of that form; but the per-job
cleanup endpoint sets file_status to cleaned from any state, in particular
directly from absent, skipping present; and the runner file-recording step
sets file_status to present regardless of the previous value, so a cleanup
request arriving mid-run can be followed by a cleaned-to-present move.
Newly created jobs start at absent. -/
theorem file_status_transitions :
    (∀ j : Job, (sweep_job j).file_status = j.file_status ∨
      (j.file_status = "present" ∧ j.download_ready = false ∧
        (sweep_job j).file_status = "cleaned")) ∧
    (∀ j : Job, (cleanup_file j).1.file_status = "cleaned") ∧
    (∀ (j : Job) (p : String), (run_job_record_file j p).file_status = "present") ∧
    (∀ u m dt dd, (process_new_job u m dt dd).file_status = "absent") ∧
    (∀ n m dt dd, (upload_new_job n m dt dd).file_status = "absent") ∧
    (∀ store : List Job, check_queue_and_cleanup store = store ∨
      check_queue_and_cleanup store = store.map sweep_job) := by
  refine ⟨?_, ?_, ?_, ?_, ?_, ?_⟩
  · intro j
    unfold sweep_job
    by_cases h1 : j.file_status = "present"
    · by_cases h2 : j.download_ready
      · simp [h1, h2]
      · right
        simp [h1, h2]
    · left
      simp [h1]
  · intro j
    unfold cleanup_file
    by_cases hp : j.file_path = "" <;> simp [hp]
  · intro j p
    rfl
  · intro u m dt dd
    rfl
  · intro n m dt dd
    rfl
  · intro store
    unfold check_queue_and_cleanup
    by_cases he : store.isEmpty
    · left; simp [he]
    · by_cases ha : store.all (fun j => j.status == "done" || j.status == "error")
      · right; simp [he, ha]
      · left; simp [he, ha]

/-- C3 counterexample: in the retranscribe thread a non-zero whisper exit
leaves the job status and message untouched, contradicting the claim that
every non-zero external tool exit sets status to error with the truncated
stderr in the message; here a finished job keeps status done and message
Complete. -/
theorem retranscribe_fail_counterexample :
    (retranscribe_fail baseJob "tiny").status = "done" ∧
    (retranscribe_fail baseJob "tiny").status ≠ "error" ∧
    (retranscribe_fail baseJob "tiny").message = "Complete" := by
  refine ⟨rfl, ?_, rfl⟩
  intro h
  simp [retranscribe_fail, baseJob] at h

/-- C3 amended: a non-zero exit of the downloader in the URL runner, or of the
transcriber in the URL runner, the upload runner or the merge transcription
thread, sets the job status to error and writes the tool stderr truncated to
at most 200 characters into the message; the retranscribe thread instead only
marks the per-model transcripts entry as error, leaving job status and message
unchanged and discarding the stderr. -/
theorem tool_failure_updates :
    (∀ (j : Job) (s : String), (run_job_download_fail j s).status = "error" ∧
      (run_job_download_fail j s).message = "Download failed: " ++ take200 s) ∧
    (∀ (j : Job) (m s : String), (run_job_transcribe_fail j m s).status = "error" ∧
      (run_job_transcribe_fail j m s).message = "Transcription failed: " ++ take200 s ∧
      List.lookup m (run_job_transcribe_fail j m s).transcripts = some ⟨"", "", "error"⟩) ∧
    (∀ (j : Job) (m s : String), (run_file_job_transcribe_fail j m s).status = "error" ∧
      (run_file_job_transcribe_fail j m s).message = "Transcription failed: " ++ take200 s ∧
      List.lookup m (run_file_job_transcribe_fail j m s).transcripts = some ⟨"", "", "error"⟩) ∧
    (∀ (j : Job) (m s : String), (merge_transcribe_fail j m s).status = "error" ∧
      (merge_transcribe_fail j m s).message = "Transcription failed: " ++ take200 s ∧
      List.lookup m (merge_transcribe_fail j m s).transcripts = some ⟨"", "", "error"⟩) ∧
    (∀ (j : Job) (m : String), (retranscribe_fail j m).status = j.status ∧
      (retranscribe_fail j m).message = j.message ∧
      List.lookup m (retranscribe_fail j m).transcripts = some ⟨"", "", "error"⟩) ∧
    (∀ s : String, (take200 s).length ≤ 200) := by
  refine ⟨?_, ?_, ?_, ?_, ?_, ?_⟩
  · intro j s; exact ⟨rfl, rfl⟩
  · intro j m s
    refine ⟨rfl, rfl, ?_⟩
    simp [run_job_transcribe_fail, dictSet, List.lookup]
  · intro j m s
    refine ⟨rfl, rfl, ?_⟩
    simp [run_file_job_transcribe_fail, dictSet, List.lookup]
  · intro j m s
    refine ⟨rfl, rfl, ?_⟩
    simp [merge_transcribe_fail, dictSet, List.lookup]
  · intro j m
    refine ⟨rfl, rfl, ?_⟩
    simp [retranscribe_fail, dictSet, List.lookup]
  · intro s
    have h : (take200 s).length = (s.data.take 200).length := rfl
    rw [h]
    exact List.length_take_le 200 s.data

/-- C5 counterexample: the whisper run of the retranscribe thread carries the
600 second transcription timeout, yet when it expires the job status is left
untouched rather than set to error, and no timed-out message is written; here
a finished job keeps status done and message Complete. -/
theorem retranscribe_timeout_counterexample :
    retranscribe_whisper_timeout = 600 ∧
    (retranscribe_timeout baseJob "tiny").status = "done" ∧
    (retranscribe_timeout baseJob "tiny").status ≠ "error" ∧
    (retranscribe_timeout baseJob "tiny").message = "Complete" := by
  refine ⟨rfl, rfl, ?_, rfl⟩
  intro h
  simp [retranscribe_timeout, baseJob] at h

/-- C5 amended: the external stages run under the fixed timeouts of 15 seconds
for the thumbnail fetches, 300 seconds for the download and 600 seconds for
every transcription run; a timeout of the download or of a transcription in
the URL runner, the upload runner or the merge thread sets status to error
with a timed-out message, while a timeout in the retranscribe thread only
marks the per-model transcripts entry as error, leaving job status and message
unchanged. -/
theorem timeout_updates :
    run_job_thumbnail_timeout = 15 ∧ run_file_job_thumbnail_timeout = 15 ∧
    run_job_download_timeout = 300 ∧
    run_job_whisper_timeout = 600 ∧ run_file_job_whisper_timeout = 600 ∧
    merge_whisper_timeout = 600 ∧ retranscribe_whisper_timeout = 600 ∧
    (∀ j : Job, (run_job_timeout j).status = "error" ∧
      (run_job_timeout j).message = "Process timed out.") ∧
    (∀ j : Job, (run_file_job_timeout j).status = "error" ∧
      (run_file_job_timeout j).message = "Process timed out.") ∧
    (∀ (j : Job) (m : String), (merge_timeout j m).status = "error" ∧
      (merge_timeout j m).message = "Transcription timed out." ∧
      List.lookup m (merge_timeout j m).transcripts = some ⟨"", "", "error"⟩) ∧
    (∀ (j : Job) (m : String), (retranscribe_timeout j m).status = j.status ∧
      (retranscribe_timeout j m).message = j.message ∧
      List.lookup m (retranscribe_timeout j m).transcripts = some ⟨"", "", "error"⟩) := by
  refine ⟨rfl, rfl, rfl, rfl, rfl, rfl, rfl, ?_, ?_, ?_, ?_⟩
  · intro j; exact ⟨rfl, rfl⟩
  · intro j; exact ⟨rfl, rfl⟩
  · intro j m
    refine ⟨rfl, rfl, ?_⟩
    simp [merge_timeout, dictSet, List.lookup]
  · intro j m
    refine ⟨rfl, rfl, ?_⟩
    simp [retranscribe_timeout, dictSet, List.lookup]

/-- C6: in both job runners, when the transcriber exits zero but no matching
JSON output file is found, the transcript is set to the placeholder string
with an empty timestamped field and the job still finishes with status done,
not error. -/
theorem missing_transcript_output_spec :
    ∀ (j : Job) (m : String),
      ((run_job_missing_json_tail j m).transcript =
          "Transcription completed but output not found." ∧
        (run_job_missing_json_tail j m).timestamped = "" ∧
        (run_job_missing_json_tail j m).status = "done" ∧
        (run_job_missing_json_tail j m).status ≠ "error" ∧
        List.lookup m (run_job_missing_json_tail j m).transcripts =
          some ⟨"Transcription completed but output not found.", "", "done"⟩) ∧
      ((run_file_job_missing_json_tail j m).transcript =
          "Transcription completed but output not found." ∧
        (run_file_job_missing_json_tail j m).timestamped = "" ∧
        (run_file_job_missing_json_tail j m).status = "done" ∧
        (run_file_job_missing_json_tail j m).status ≠ "error" ∧
        List.lookup m (run_file_job_missing_json_tail j m).transcripts =
          some ⟨"Transcription completed but output not found.", "", "done"⟩) := by
  intro j m
  constructor
  · refine ⟨rfl, rfl, rfl, by simp [run_job_missing_json_tail], ?_⟩
    simp [run_job_missing_json_tail, dictSet, List.lookup]
  · refine ⟨rfl, rfl, rfl, by simp [run_file_job_missing_json_tail], ?_⟩
    simp [run_file_job_missing_json_tail, dictSet, List.lookup]

/-- C1: when every job in the store is terminal the sweep rewrites the store
pointwise by the per-job sweep; the per-job sweep unlinks the backing file and
marks file_status cleaned for every present job whose download_ready flag is
clear; a job with download_ready set is returned entirely unchanged; and with
any non-terminal job in the store the sweep returns the store untouched. -/
theorem check_queue_and_cleanup_spec :
    (∀ store : List Job, (∀ j ∈ store, j.status = "done" ∨ j.status = "error") →
      check_queue_and_cleanup store = store.map sweep_job) ∧
    (∀ j : Job, j.file_status = "present" → j.download_ready = false →
      (j.fileOnDisk = true → j.file_path ≠ "") →
      (sweep_job j).file_status = "cleaned" ∧ (sweep_job j).fileOnDisk = false) ∧
    (∀ j : Job, j.download_ready = true → sweep_job j = j) ∧
    (∀ store : List Job, (∃ j ∈ store, ¬(j.status = "done" ∨ j.status = "error")) →
      check_queue_and_cleanup store = store) := by
  refine ⟨?_, ?_, ?_, ?_⟩
  · intro store h
    unfold check_queue_and_cleanup
    have hall : store.all (fun j => j.status == "done" || j.status == "error") = true := by
      rw [List.all_eq_true]
      intro j hj
      rcases h j hj with h1 | h1 <;> simp [h1]
    by_cases he : store.isEmpty
    · have hnil : store = [] := by
        cases store with
        | nil => rfl
        | cons a l => simp [List.isEmpty] at he
      subst hnil
      simp
    · simp [he, hall]
  · intro j h1 h2 h3
    have hc : sweep_job j =
        { j with fileOnDisk := if j.file_path = "" then j.fileOnDisk else false,
                 file_status := "cleaned" } := by
      unfold sweep_job
      simp [h1, h2]
    rw [hc]
    refine ⟨rfl, ?_⟩
    by_cases hp : j.file_path = ""
    · cases hb : j.fileOnDisk with
      | false => simp [hp, hb]
      | true => exact absurd hp (h3 hb)
    · simp [hp]
  · intro j h
    unfold sweep_job
    by_cases h1 : j.file_status = "present"
    · simp [h1, h]
    · simp [h1]
  · intro store hex
    obtain ⟨j, hj, hnt⟩ := hex
    unfold check_queue_and_cleanup
    have he : store.isEmpty = false := by
      cases store with
      | nil => cases hj
      | cons a l => rfl
    have hall : ¬ (store.all (fun j => j.status == "done" || j.status == "error") = true) := by
      intro hco
      have h2 := List.all_eq_true.mp hco j hj
      simp at h2
      exact hnt h2
    simp [he, hall]

/-- C1 witness: a two-job all-terminal store in which the finished job without
a pending download loses its file and becomes cleaned while the job with a
pending download is untouched, and a store containing a downloading job that
the sweep leaves alone. -/
theorem check_queue_and_cleanup_spec_witness :
    (∀ j ∈ [baseJob, { baseJob with download_ready := true }],
      j.status = "done" ∨ j.status = "error") ∧
    check_queue_and_cleanup [baseJob, { baseJob with download_ready := true }] =
      [baseJob, { baseJob with download_ready := true }].map sweep_job ∧
    ((sweep_job baseJob).file_status = "cleaned" ∧ (sweep_job baseJob).fileOnDisk = false) ∧
    sweep_job { baseJob with download_ready := true } =
      { baseJob with download_ready := true } ∧
    check_queue_and_cleanup [{ baseJob with status := "downloading" }] =
      [{ baseJob with status := "downloading" }] :=
  ⟨by decide,
   check_queue_and_cleanup_spec.1 _ (by decide),
   check_queue_and_cleanup_spec.2.1 baseJob (by decide) (by decide) (fun _ => by decide),
   check_queue_and_cleanup_spec.2.2.1 _ (by decide),
   check_queue_and_cleanup_spec.2.2.2 _
     ⟨{ baseJob with status := "downloading" }, by decide, by decide⟩⟩

/-- C4 counterexample: the ogg extension is accepted by the upload handler,
yet the shutdown-time wipe does not delete an ogg file, so not every extension
the application accepts via upload is removed by it. -/
theorem cleanup_downloads_dir_counterexample :
    ALLOWED_EXTENSIONS.contains ".ogg" = true ∧
    cleanup_downloads_dir [⟨true, ".ogg"⟩] = [⟨true, ".ogg"⟩] := by
  exact ⟨by decide, by decide⟩

/-- C4 amended: the shutdown-time wipe unconditionally deletes every regular
file whose suffix is in its fixed list, which covers every suffix the URL
runner scans for, every whisper sidecar, the JSON output and the jpg
thumbnails, and keeps every other entry; but the upload-only extensions ogg,
flac, avi and m4v are not in the list, so uploads with those extensions
survive the wipe. -/
theorem cleanup_downloads_dir_spec :
    (∀ (dir : List DirEntry) (f : DirEntry), f.isFile = true →
      f.suffix ∈ CLEANUP_SUFFIXES → f ∉ cleanup_downloads_dir dir) ∧
    (∀ (dir : List DirEntry) (f : DirEntry), f ∈ dir →
      (f.isFile = false ∨ f.suffix ∉ CLEANUP_SUFFIXES) → f ∈ cleanup_downloads_dir dir) ∧
    (∀ s ∈ RUNNER_SCAN_SUFFIXES, s ∈ CLEANUP_SUFFIXES) ∧
    (∀ s ∈ WHISPER_SIDECAR_SUFFIXES, s ∈ CLEANUP_SUFFIXES) ∧
    ".json" ∈ CLEANUP_SUFFIXES ∧ ".jpg" ∈ CLEANUP_SUFFIXES ∧
    (∀ s ∈ [".ogg", ".flac", ".avi", ".m4v"],
      s ∈ ALLOWED_EXTENSIONS ∧ s ∉ CLEANUP_SUFFIXES) := by
  refine ⟨?_, ?_, by decide, by decide, by decide, by decide, by decide⟩
  · intro dir f h1 h2 hmem
    unfold cleanup_downloads_dir at hmem
    rw [List.mem_filter] at hmem
    have hk := hmem.2
    simp [h1] at hk
    exact hk h2
  · intro dir f hmem hor
    unfold cleanup_downloads_dir
    rw [List.mem_filter]
    refine ⟨hmem, ?_⟩
    rcases hor with h | h <;> simp [h]

/-- C4 witness: an mp4 file is wiped, an ogg file survives, the mp4 suffix is
in the wipe list, and the ogg suffix is upload-accepted but absent from it. -/
theorem cleanup_downloads_dir_spec_witness :
    ((⟨true, ".mp4"⟩ : DirEntry) ∉ cleanup_downloads_dir [⟨true, ".mp4"⟩]) ∧
    ((⟨true, ".ogg"⟩ : DirEntry) ∈ cleanup_downloads_dir [⟨true, ".ogg"⟩]) ∧
    ".mp4" ∈ CLEANUP_SUFFIXES ∧
    (".ogg" ∈ ALLOWED_EXTENSIONS ∧ ".ogg" ∉ CLEANUP_SUFFIXES) :=
  ⟨cleanup_downloads_dir_spec.1 _ _ rfl (by decide),
   cleanup_downloads_dir_spec.2.1 _ _ (by decide) (Or.inr (by decide)),
   cleanup_downloads_dir_spec.2.2.1 _ (by decide),
   cleanup_downloads_dir_spec.2.2.2.2.2.2 _ (by decide)⟩

/-- C7: a process request, and likewise an upload request, whose transcribe
and download flags are both false is answered with code 400 and an error
message, and the job store is left unchanged, whatever else the request
contains. -/
theorem no_capability_rejected :
    (∀ (req : ProcessReq) (store : List Job), req.transcribe = false →
      req.download = false →
      (process req store).1.code = 400 ∧ (process req store).1.error.isSome = true ∧
      (process req store).2 = store) ∧
    (∀ (sf : String → String) (req : UploadReq) (store : List Job),
      parseFormFlag req.formTranscribe = false → parseFormFlag req.formDownload = false →
      (upload sf req store).1.code = 400 ∧ (upload sf req store).1.error.isSome = true ∧
      (upload sf req store).2 = store) := by
  constructor
  · intro req store h1 h2
    unfold process
    by_cases hu : pyStrip req.url = ""
    · simp [hu]
    · simp [hu, h1, h2]
  · intro sf req store h1 h2
    unfold upload
    by_cases ha : req.hasFile = false
    · simp [ha]
    · by_cases hb : req.filename = ""
      · simp [ha, hb]
      · by_cases hc : pyLower (pySuffix req.filename) ∈ ALLOWED_EXTENSIONS
        · simp [ha, hb, hc, h1, h2]
        · simp [ha, hb, hc]

/-- C7 witness: a concrete process request and a concrete upload request with
both capabilities off are rejected with 400 and create nothing. -/
theorem no_capability_rejected_witness :
    ((process ⟨"http://example.test/v", "base", false, false⟩ []).1.code = 400 ∧
      (process ⟨"http://example.test/v", "base", false, false⟩ []).1.error.isSome = true ∧
      (process ⟨"http://example.test/v", "base", false, false⟩ []).2 = []) ∧
    ((upload id ⟨true, "v.mp4", "base", "false", "false"⟩ []).1.code = 400 ∧
      (upload id ⟨true, "v.mp4", "base", "false", "false"⟩ []).1.error.isSome = true ∧
      (upload id ⟨true, "v.mp4", "base", "false", "false"⟩ []).2 = []) :=
  ⟨no_capability_rejected.1 _ _ rfl rfl,
   no_capability_rejected.2 id _ _ (by decide) (by decide)⟩

/-- C8: every timestamped transcript line has the claimed shape, namely the
bracketed two-digit zero-padded minute and second pairs of the
integer-truncated start and end times joined by the arrow, then two spaces and
the stripped segment text; in particular the segment with start zero, end
five and text hello yields exactly the expected line, alone and as the whole
timestamped field. -/
theorem timestamp_line_spec :
    (∀ seg : Segment, timestampLine seg = claimTimestampLine seg) ∧
    timestampLine ⟨0, 5, "hello"⟩ = "[00:00 → 00:05]  hello" ∧
    timestampedField [⟨0, 5, "hello"⟩] = "[00:00 → 00:05]  hello" := by
  refine ⟨?_, by decide, by decide⟩
  intro seg
  simp only [timestampLine, claimTimestampLine, pyDivmod]
  rw [Int.fdiv_eq_ediv _ (by norm_num), Int.fmod_eq_emod _ (by norm_num),
      Int.fdiv_eq_ediv _ (by norm_num), Int.fmod_eq_emod _ (by norm_num)]
  rfl

/-- C9: a model size outside the accepted set is never rejected; the process,
upload, merge and retranscribe handlers behave exactly as if the base model
had been requested. -/
theorem invalid_model_defaults_to_base :
    ∀ m : String, m ∉ VALID_MODELS →
      normalizeModel m = "base" ∧
      (∀ (url : String) (t d : Bool) (store : List Job),
        process ⟨url, m, t, d⟩ store = process ⟨url, "base", t, d⟩ store) ∧
      (∀ (sf : String → String) (hf : Bool) (fn ft fd : String) (store : List Job),
        upload sf ⟨hf, fn, m, ft, fd⟩ store = upload sf ⟨hf, fn, "base", ft, fd⟩ store) ∧
      (∀ (j : Job) (dl tr : Bool), merge_job j ⟨dl, tr, m⟩ = merge_job j ⟨dl, tr, "base"⟩) ∧
      (∀ j : Job, retranscribe j m = retranscribe j "base") := by
  intro m hm
  have hc : VALID_MODELS.contains m = false := by simpa using hm
  have hn : normalizeModel m = "base" := by
    unfold normalizeModel
    rw [hc]
    simp
  have hb : normalizeModel "base" = "base" := by decide
  refine ⟨hn, ?_, ?_, ?_, ?_⟩
  · intro url t d store
    simp only [process, hn, hb]
  · intro sf hf fn ft fd store
    simp only [upload, hn, hb]
  · intro j dl tr
    simp only [merge_job, hn, hb]
  · intro j
    simp only [retranscribe, hn, hb]

/-- C9 witness: the unaccepted model size large is replaced by base in each
handler at concrete inputs. -/
theorem invalid_model_defaults_to_base_witness :
    "large" ∉ VALID_MODELS ∧
    normalizeModel "large" = "base" ∧
    process ⟨"http://example.test/v", "large", true, false⟩ [] =
      process ⟨"http://example.test/v", "base", true, false⟩ [] ∧
    upload id ⟨true, "v.mp4", "large", "true", "false"⟩ [] =
      upload id ⟨true, "v.mp4", "base", "true", "false"⟩ [] ∧
    merge_job baseJob ⟨true, true, "large"⟩ = merge_job baseJob ⟨true, true, "base"⟩ ∧
    retranscribe baseJob "large" = retranscribe baseJob "base" := by
  have h := invalid_model_defaults_to_base "large" (by decide)
  exact ⟨by decide, h.1, h.2.1 _ _ _ _, h.2.2.1 id _ _ _ _ _, h.2.2.2.1 _ _ _, h.2.2.2.2 _⟩

/-- C10: the per-job cleanup endpoint, applied to any known job whatever its
status, returns 200 with ok true, marks file_status cleaned, clears
download_ready, removes the backing file, the derived mp3 and the thumbnail,
and leaves every other field of the record unchanged. -/
theorem cleanup_endpoint_spec :
    ∀ job : Job,
      (job.fileOnDisk = true → job.file_path ≠ "") →
      (job.mp3OnDisk = true → job.file_path ≠ "") →
      ((cleanup_file job).2.code = 200 ∧ (cleanup_file job).2.ok = true) ∧
      ((cleanup_file job).1.file_status = "cleaned" ∧
        (cleanup_file job).1.download_ready = false) ∧
      ((cleanup_file job).1.fileOnDisk = false ∧ (cleanup_file job).1.mp3OnDisk = false ∧
        (cleanup_file job).1.thumbOnDisk = false) ∧
      ((cleanup_file job).1.status = job.status ∧
        (cleanup_file job).1.message = job.message ∧
        (cleanup_file job).1.transcript = job.transcript ∧
        (cleanup_file job).1.timestamped = job.timestamped ∧
        (cleanup_file job).1.transcripts = job.transcripts ∧
        (cleanup_file job).1.filename = job.filename ∧
        (cleanup_file job).1.title = job.title ∧
        (cleanup_file job).1.url = job.url ∧
        (cleanup_file job).1.model = job.model ∧
        (cleanup_file job).1.file_path = job.file_path ∧
        (cleanup_file job).1.do_transcribe = job.do_transcribe ∧
        (cleanup_file job).1.do_download = job.do_download ∧
        (cleanup_file job).1.download_path = job.download_path ∧
        (cleanup_file job).1.thumbnail = job.thumbnail) := by
  intro job h1 h2
  by_cases hp : job.file_path = ""
  · have hf : job.fileOnDisk = false := by
      cases hb : job.fileOnDisk with
      | false => rfl
      | true => exact absurd hp (h1 hb)
    have hm : job.mp3OnDisk = false := by
      cases hb : job.mp3OnDisk with
      | false => rfl
      | true => exact absurd hp (h2 hb)
    unfold cleanup_file
    simp [hp, hf, hm]
  · unfold cleanup_file
    simp [hp]

/-- C10 witness: the endpoint applied to the sample job gives 200 with ok
true, a cleaned record with its artifacts gone and its status preserved. -/
theorem cleanup_endpoint_spec_witness :
    (cleanup_file baseJob).2.code = 200 ∧ (cleanup_file baseJob).2.ok = true ∧
    (cleanup_file baseJob).1.file_status = "cleaned" ∧
    (cleanup_file baseJob).1.fileOnDisk = false ∧
    (cleanup_file baseJob).1.status = baseJob.status := by
  obtain ⟨⟨hcode, hok⟩, ⟨hfs, _⟩, ⟨hfd, _, _⟩, hstat, _⟩ :=
    cleanup_endpoint_spec baseJob (fun _ => by decide) (fun _ => by decide)
  exact ⟨hcode, hok, hfs, hfd, hstat⟩

end VideoMasa
